import Mathlib

/-!
# Verification of the Tetris game-state core

Shallow embedding of the repository's game-state core
(`src/tetromino.py`, `src/board.py`, `src/game.py`) and proofs of the
spec claims about it.

Conventions of the embedding:
* Python `int` becomes `Int` where values can be negative (piece
  coordinates, the lock-delay timer) and `Nat` where the code only ever
  holds non-negative values (scores, counters, grid cells, dimensions).
* Python lists become `List`; `grid[y][x]` becomes `getD` access, which
  agrees with Python on every index the code actually reads (the code
  guards its reads).
* The `while` loop of `Board.clear_lines` is a fuelled recursion; the
  top-level function supplies fuel that is proved sufficient for every
  board of positive width.
* Randomness (`random.choice` in `Tetromino.__init__`, `pyxel.rndf` in
  the jump-scare roll) is threaded as an explicit `Oracle` argument.
* Keyboard polling (`pyxel.btn`/`btnp`) becomes an explicit `Input`
  record consumed by `update`.
* The decorative `particles` list is omitted from the state: its entries
  use floating-point positions, it is written only by
  `lock_current_piece`/`update` and read only by the renderer, and no
  game-logic field ever depends on it.
-/

namespace Tetris

/-- The seven tetromino shape tags (`SHAPES` keys in `tetromino.py`). -/
inductive ShapeType where
  | I | O | T | S | Z | J | L
deriving DecidableEq, Repr

open ShapeType

/-- `Tetromino.SHAPES`: rotation states per shape, 4×4 occupancy grids,
transcribed cell for cell from `tetromino.py`. -/
def SHAPES : ShapeType → List (List (List Nat))
  | .I => [[[0, 0, 0, 0],
            [1, 1, 1, 1],
            [0, 0, 0, 0],
            [0, 0, 0, 0]],
           [[0, 1, 0, 0],
            [0, 1, 0, 0],
            [0, 1, 0, 0],
            [0, 1, 0, 0]]]
  | .O => [[[0, 0, 0, 0],
            [0, 1, 1, 0],
            [0, 1, 1, 0],
            [0, 0, 0, 0]]]
  | .T => [[[0, 0, 0, 0],
            [0, 1, 0, 0],
            [1, 1, 1, 0],
            [0, 0, 0, 0]],
           [[0, 0, 0, 0],
            [0, 1, 0, 0],
            [0, 1, 1, 0],
            [0, 1, 0, 0]],
           [[0, 0, 0, 0],
            [0, 0, 0, 0],
            [1, 1, 1, 0],
            [0, 1, 0, 0]],
           [[0, 0, 0, 0],
            [0, 1, 0, 0],
            [1, 1, 0, 0],
            [0, 1, 0, 0]]]
  | .S => [[[0, 0, 0, 0],
            [0, 0, 1, 1],
            [0, 1, 1, 0],
            [0, 0, 0, 0]],
           [[0, 0, 0, 0],
            [0, 1, 0, 0],
            [0, 1, 1, 0],
            [0, 0, 1, 0]]]
  | .Z => [[[0, 0, 0, 0],
            [1, 1, 0, 0],
            [0, 1, 1, 0],
            [0, 0, 0, 0]],
           [[0, 0, 0, 0],
            [0, 0, 1, 0],
            [0, 1, 1, 0],
            [0, 1, 0, 0]]]
  | .J => [[[0, 0, 0, 0],
            [0, 1, 0, 0],
            [0, 1, 0, 0],
            [1, 1, 0, 0]],
           [[0, 0, 0, 0],
            [1, 0, 0, 0],
            [1, 1, 1, 0],
            [0, 0, 0, 0]],
           [[0, 0, 0, 0],
            [0, 1, 1, 0],
            [0, 1, 0, 0],
            [0, 1, 0, 0]],
           [[0, 0, 0, 0],
            [0, 0, 0, 0],
            [1, 1, 1, 0],
            [0, 0, 1, 0]]]
  | .L => [[[0, 0, 0, 0],
            [0, 1, 0, 0],
            [0, 1, 0, 0],
            [0, 1, 1, 0]],
           [[0, 0, 0, 0],
            [0, 0, 0, 0],
            [1, 1, 1, 0],
            [1, 0, 0, 0]],
           [[0, 0, 0, 0],
            [1, 1, 0, 0],
            [0, 1, 0, 0],
            [0, 1, 0, 0]],
           [[0, 0, 0, 0],
            [0, 0, 1, 0],
            [1, 1, 1, 0],
            [0, 0, 0, 0]]]

/-- `Tetromino.COLORS` from `tetromino.py`. -/
def COLORS : ShapeType → Nat
  | .I => 12
  | .O => 10
  | .T => 13
  | .S => 11
  | .Z => 8
  | .J => 5
  | .L => 9

/-- A tetromino instance (`Tetromino` in `tetromino.py`).  The Python
object also stores `rotations` and `color`, but those are always the
table entries for `shape_type` and are never mutated, so they are
derived functions here. -/
structure Tetromino where
  shape_type : ShapeType
  rotation_index : Nat
  x : Int
  y : Int
deriving DecidableEq, Repr

/-- `self.rotations` (always `SHAPES[shape_type]`). -/
def Tetromino.rotations (t : Tetromino) : List (List (List Nat)) :=
  SHAPES t.shape_type

/-- `self.color` (always `COLORS[shape_type]`). -/
def Tetromino.color (t : Tetromino) : Nat :=
  COLORS t.shape_type

/-- `Tetromino.__init__(shape_type, x, y)` (with a concrete shape type;
the random-choice branch is resolved by the caller's oracle). -/
def mkTetromino (ty : ShapeType) (x : Int := 3) (y : Int := 0) : Tetromino :=
  { shape_type := ty, rotation_index := 0, x := x, y := y }

/-- `Tetromino.shape`: the current rotation state. -/
def Tetromino.shape (t : Tetromino) : List (List Nat) :=
  t.rotations.getD t.rotation_index []

/-- `Tetromino.rotate_clockwise`. -/
def Tetromino.rotate_clockwise (t : Tetromino) : Tetromino :=
  { t with rotation_index := (t.rotation_index + 1) % t.rotations.length }

/-- `Tetromino.rotate_counterclockwise`.  Python's `%` on a negative
left operand with positive modulus matches `Int.emod`. -/
def Tetromino.rotate_counterclockwise (t : Tetromino) : Tetromino :=
  { t with rotation_index :=
      (((t.rotation_index : Int) - 1) % (t.rotations.length : Int)).toNat }

/-- `Tetromino.get_blocks`: absolute `(x, y)` positions of the occupied
cells, in the row-major order the Python loops produce. -/
def Tetromino.get_blocks (t : Tetromino) : List (Int × Int) :=
  (List.range 4).flatMap fun row =>
    (List.range 4).filterMap fun col =>
      if ((t.shape.getD row []).getD col 0) ≠ 0 then
        some (t.x + col, t.y + row)
      else
        none

/-- The game board (`Board` in `board.py`). -/
structure Board where
  width : Nat
  height : Nat
  grid : List (List Nat)
deriving DecidableEq, Repr

/-- Well-formedness that `Board.__init__` establishes and every Python
method preserves: the grid is a `height`-by-`width` matrix. -/
def Board.WF (b : Board) : Prop :=
  b.grid.length = b.height ∧ ∀ r ∈ b.grid, r.length = b.width

instance (b : Board) : Decidable b.WF := by
  unfold Board.WF; infer_instance

/-- `Board.__init__(width, height)`. -/
def mkBoard (width : Nat := 10) (height : Nat := 20) : Board :=
  { width := width, height := height,
    grid := List.replicate height (List.replicate width 0) }

/-- The cell read `self.grid[y][x]` (the code only evaluates it with
`0 ≤ y < height` and `0 ≤ x < width`, where `getD` agrees with Python). -/
def Board.cell (b : Board) (x y : Int) : Nat :=
  (b.grid.getD y.toNat []).getD x.toNat 0

/-- The per-block test inside `Board.is_valid_position`. -/
def Board.blockOk (b : Board) (p : Int × Int) : Bool :=
  if p.1 < 0 ∨ p.1 ≥ (b.width : Int) ∨ p.2 ≥ (b.height : Int) then false
  else if 0 ≤ p.2 ∧ b.cell p.1 p.2 ≠ 0 then false
  else true

/-- `Board.is_valid_position`. -/
def Board.is_valid_position (b : Board) (t : Tetromino) : Bool :=
  t.get_blocks.all b.blockOk

/-- Writing one cell: `self.grid[y][x] = v`. -/
def setCell (g : List (List Nat)) (x y v : Nat) : List (List Nat) :=
  g.set y ((g.getD y []).set x v)

/-- `Board.lock_tetromino`. -/
def Board.lock_tetromino (b : Board) (t : Tetromino) : Board :=
  { b with grid := t.get_blocks.foldl (fun g p =>
      if 0 ≤ p.2 ∧ p.2 < (b.height : Int) ∧ 0 ≤ p.1 ∧ p.1 < (b.width : Int) then
        setCell g p.1.toNat p.2.toNat t.color
      else g) b.grid }

/-- The row test `all(self.grid[y][x] != 0 for x in range(self.width))`
used by both `Board.clear_lines` and `TetrisGame.lock_current_piece`. -/
def isFullRow (w : Nat) (row : List Nat) : Bool :=
  (List.range w).all fun x => row.getD x 0 ≠ 0

/-- The `while` loop of `Board.clear_lines`, with `n = y + 1` (the loop
runs while `y ≥ 0`) and explicit fuel.  A full row at index `n - 1` is
deleted and an empty row is inserted at index 0, re-checking the same
index; otherwise the index moves up. -/
def clearLinesAux (w : Nat) : Nat → List (List Nat) → Nat → Nat →
    List (List Nat) × Nat
  | 0, g, _, acc => (g, acc)
  | _ + 1, g, 0, acc => (g, acc)
  | fuel + 1, g, n + 1, acc =>
    if isFullRow w (g.getD n []) then
      clearLinesAux w fuel (List.replicate w 0 :: g.eraseIdx n) (n + 1) (acc + 1)
    else
      clearLinesAux w fuel g n acc

/-- `Board.clear_lines`: returns the updated board and the number of
lines cleared.  The supplied fuel covers the whole loop whenever the
board width is positive (proved in `clearLinesAux_spec`); for width 0
the Python loop does not terminate. -/
def Board.clear_lines (b : Board) : Board × Nat :=
  let r := clearLinesAux b.width
    (b.grid.length + b.grid.countP (fun row => isFullRow b.width row) + 1)
    b.grid b.grid.length 0
  ({ b with grid := r.1 }, r.2)

/-- `Board.is_game_over`. -/
def Board.is_game_over (b : Board) : Bool :=
  (List.range b.width).any fun x => (b.grid.getD 0 []).getD x 0 ≠ 0

/-- `Board.get_cell`. -/
def Board.get_cell (b : Board) (x y : Int) : Nat :=
  if 0 ≤ x ∧ x < (b.width : Int) ∧ 0 ≤ y ∧ y < (b.height : Int) then
    b.cell x y
  else 0

/-- `Board.reset`. -/
def Board.reset (b : Board) : Board :=
  { b with grid := List.replicate b.height (List.replicate b.width 0) }

/-- Display tag of a shape, for the spin banner strings. -/
def ShapeType.tag : ShapeType → String
  | .I => "I"
  | .O => "O"
  | .T => "T"
  | .S => "S"
  | .Z => "Z"
  | .J => "J"
  | .L => "L"

/-- The random draws a single call can consume: up to two fresh piece
types (`random.choice` in `Tetromino.__init__`) and the jump-scare roll
(`pyxel.rndf(0, 1) < 0.05`). -/
structure Oracle where
  pieceA : ShapeType
  pieceB : ShapeType
  jump : Bool
deriving DecidableEq, Repr

/-- One frame's keyboard sample (`pyxel.btn`/`pyxel.btnp` results). -/
structure Input where
  keyP : Bool := false
  keyUp : Bool := false
  keyX : Bool := false
  keyZ : Bool := false
  keyC : Bool := false
  keySpace : Bool := false
  keyLeft : Bool := false
  keyRight : Bool := false
  keyDown : Bool := false
deriving DecidableEq, Repr

/-- `TetrisGame.FALL_SPEED_TABLE`. -/
def FALL_SPEED_TABLE : List Nat :=
  [48, 43, 38, 33, 28, 23, 18, 13, 8, 6,
   5, 5, 5, 4, 4, 4, 3, 3, 3, 2,
   2, 2, 2, 2, 2, 2, 2, 2, 2, 1]

/-- `TetrisGame.MOVE_DELAY`. -/
def MOVE_DELAY : Nat := 8

/-- `TetrisGame.INITIAL_MOVE_DELAY`. -/
def INITIAL_MOVE_DELAY : Nat := 15

/-- `TetrisGame.LOCK_DELAY`. -/
def LOCK_DELAY : Int := 15

/-- `TetrisGame.LOCK_DELAY_EXTENSION`. -/
def LOCK_DELAY_EXTENSION : Int := 5

/-- The game state (`TetrisGame` in `game.py`), minus the
floating-point `particles` list (cosmetic only, never read by game
logic; see the module comment). -/
structure TetrisGame where
  board : Board
  current_piece : Option Tetromino
  next_piece : Option Tetromino
  held_piece : Option Tetromino
  can_swap : Bool
  score : Nat
  high_score : Nat
  start_level : Nat
  lines_cleared : Nat
  level : Nat
  game_over : Bool
  paused : Bool
  combo : Nat
  clearing_lines : List Nat
  clear_animation_timer : Nat
  level_up_timer : Nat
  score_popup : Nat
  score_popup_timer : Nat
  tetris_timer : Nat
  shake_timer : Nat
  spin_message : String
  spin_message_timer : Nat
  last_rotation_was_spin : Bool
  jump_scare_active : Bool
  jump_scare_timer : Nat
  fall_counter : Nat
  fall_speed : Nat
  move_left_counter : Nat
  move_right_counter : Nat
  move_down_counter : Nat
  lock_delay_timer : Int
  piece_on_ground : Bool
deriving DecidableEq, Repr

/-- `TetrisGame.calculate_fall_speed`. -/
def calculate_fall_speed (level : Nat) : Nat :=
  FALL_SPEED_TABLE.getD (min (level - 1) (FALL_SPEED_TABLE.length - 1)) 0

/-- The piece `spawn_new_piece` promotes to active: the stored next
piece (or a fresh random one when there is none), repositioned to the
spawn column and row 0. -/
def spawnCandidate (oA : ShapeType) (g : TetrisGame) : Tetromino :=
  let np := g.next_piece.getD (mkTetromino oA)
  { np with x := ((g.board.width / 2 : Nat) : Int) - 2, y := 0 }

/-- `TetrisGame.spawn_new_piece`. -/
def spawn_new_piece (oA oB : ShapeType) (g : TetrisGame) : TetrisGame :=
  let cur := spawnCandidate oA g
  let g1 := { g with
    current_piece := some cur,
    next_piece := some (mkTetromino oB),
    lock_delay_timer := 0,
    piece_on_ground := false,
    can_swap := true,
    last_rotation_was_spin := false }
  if ¬ g1.board.is_valid_position cur then { g1 with game_over := true } else g1

/-- `TetrisGame.move_piece`: returns the Python boolean together with
the updated state. -/
def move_piece (dx dy : Int) (g : TetrisGame) : Bool × TetrisGame :=
  match g.current_piece with
  | none => (false, g)
  | some p =>
    if g.game_over ∨ g.paused then (false, g)
    else
      let moved := { p with x := p.x + dx, y := p.y + dy }
      if ¬ g.board.is_valid_position moved then
        (false, { g with current_piece := some { moved with
          x := moved.x - dx, y := moved.y - dy } })
      else
        let g1 := { g with current_piece := some moved }
        if g1.piece_on_ground then
          let t := min (g1.lock_delay_timer + LOCK_DELAY_EXTENSION) LOCK_DELAY
          (true, { g1 with lock_delay_timer := t })
        else (true, g1)

/-- `TetrisGame.check_spin`. -/
def check_spin (g : TetrisGame) : Bool :=
  match g.current_piece with
  | none => false
  | some p =>
    let corners : List (Int × Int) :=
      [(p.x + 0, p.y + 0), (p.x + 2, p.y + 0),
       (p.x + 0, p.y + 2), (p.x + 2, p.y + 2)]
    let occupied_corners := corners.countP fun c =>
      c.1 < 0 ∨ c.1 ≥ (g.board.width : Int) ∨
      c.2 < 0 ∨ c.2 ≥ (g.board.height : Int) ∨
      g.board.get_cell c.1 c.2 ≠ 0
    occupied_corners ≥ 3

/-- The wall-kick x-offsets tried by `rotate_piece`, in order. -/
def kickOffsets : List Int := [0, -1, 1, -2, 2]

/-- The kick search of `rotate_piece`: the already-rotated piece if it
validates in place, otherwise the first offset of `kickOffsets` whose
shifted position validates; `none` when the rotation must be reverted.
(The Python loop tries each offset from the unshifted x and undoes a
failed shift, so each trial starts from the same x.) -/
def kickResult (b : Board) (p1 : Tetromino) : Option Tetromino :=
  if b.is_valid_position p1 then some p1
  else
    (kickOffsets.find? fun dx =>
      b.is_valid_position { p1 with x := p1.x + dx }).map
     fun dx => { p1 with x := p1.x + dx }

/-- `TetrisGame.rotate_piece`. -/
def rotate_piece (clockwise : Bool) (g : TetrisGame) : TetrisGame :=
  match g.current_piece with
  | none => g
  | some p =>
    if g.game_over ∨ g.paused then g
    else
      let p1 := if clockwise then p.rotate_clockwise
                else p.rotate_counterclockwise
      match kickResult g.board p1 with
      | none =>
        let pr := if clockwise then p1.rotate_counterclockwise
                  else p1.rotate_clockwise
        { g with current_piece := some pr, last_rotation_was_spin := false }
      | some p2 =>
        let g1 := { g with current_piece := some p2 }
        let spinFlag :=
          if p2.shape_type ∈ [ShapeType.T, ShapeType.S, ShapeType.Z] then
            check_spin g1
          else false
        let g2 := { g1 with last_rotation_was_spin := spinFlag }
        if g2.piece_on_ground then
          let t := min (g2.lock_delay_timer + LOCK_DELAY_EXTENSION) LOCK_DELAY
          { g2 with lock_delay_timer := t }
        else g2

/-- `TetrisGame.hold_piece`. -/
def hold_piece (o : Oracle) (g : TetrisGame) : TetrisGame :=
  match g.current_piece with
  | none => g
  | some p =>
    if ¬ g.can_swap ∨ g.game_over ∨ g.paused then g
    else
      let g1 :=
        match g.held_piece with
        | none =>
          spawn_new_piece o.pieceA o.pieceB
            { g with held_piece := some (mkTetromino p.shape_type) }
        | some hp =>
          { g with
            held_piece := some (mkTetromino p.shape_type),
            current_piece := some { mkTetromino hp.shape_type with
              x := ((g.board.width / 2 : Nat) : Int) - 2, y := 0 },
            lock_delay_timer := 0,
            piece_on_ground := false }
      { g1 with can_swap := false, last_rotation_was_spin := false }

/-- Start of the line-clear branch of `lock_current_piece`: record the
clearing rows, arm the clear animation, bump the combo. -/
def lockArm (full_lines : List Nat) (g : TetrisGame) : TetrisGame :=
  { g with clearing_lines := full_lines, clear_animation_timer := 8,
           combo := g.combo + 1 }

/-- The `pyxel.rndf(0, 1) < 0.05` jump-scare roll in
`lock_current_piece` (the sound side effect is dropped). -/
def lockJumpScare (o : Oracle) (g : TetrisGame) : TetrisGame :=
  if o.jump then
    { g with jump_scare_active := true, jump_scare_timer := 10,
             shake_timer := 30 }
  else g

/-- `self.lines_cleared += lines`. -/
def lockAddLines (lines : Nat) (g : TetrisGame) : TetrisGame :=
  { g with lines_cleared := g.lines_cleared + lines }

/-- The spin bonus and banner text computed in `lock_current_piece`
(`spin_bonus`, `spin_name`). -/
def spinBonus (p : Tetromino) (lines : Nat) (g : TetrisGame) : Nat × String :=
  if g.last_rotation_was_spin ∧
      p.shape_type ∈ [ShapeType.T, ShapeType.S, ShapeType.Z] then
    if lines = 1 then (800 * g.level, p.shape_type.tag ++ "-SPIN!")
    else if lines = 2 then (1200 * g.level, p.shape_type.tag ++ "-SPIN DOUBLE!")
    else if lines = 3 then (1600 * g.level, p.shape_type.tag ++ "-SPIN TRIPLE!")
    else (0, "")
  else (0, "")

/-- `if spin_name: ...` banner arming in `lock_current_piece`. -/
def lockSpinBanner (sp : Nat × String) (g : TetrisGame) : TetrisGame :=
  if sp.2 ≠ "" then
    { g with spin_message := sp.2, spin_message_timer := 80,
             shake_timer := max g.shake_timer 12 }
  else g

/-- `line_scores[min(lines, 4)] * level + spin_bonus`, plus the combo
bonus when `combo > 1` (`score_gained`). -/
def scoreGained (sp : Nat × String) (lines : Nat) (g : TetrisGame) : Nat :=
  let line_scores : List Nat := [0, 100, 300, 500, 800]
  let base := line_scores.getD (min lines 4) 0 * g.level + sp.1
  if g.combo > 1 then base + 50 * g.combo * g.level else base

/-- `self.score += score_gained` and the score-popup arming. -/
def lockAddScore (gained : Nat) (g : TetrisGame) : TetrisGame :=
  { g with score := g.score + gained, score_popup := gained,
           score_popup_timer := 60 }

/-- `if self.score > self.high_score: ...`. -/
def lockHighScore (g : TetrisGame) : TetrisGame :=
  if g.score > g.high_score then { g with high_score := g.score } else g

/-- `self.shake_timer = 4 + (lines * 2)`. -/
def lockShake (lines : Nat) (g : TetrisGame) : TetrisGame :=
  { g with shake_timer := 4 + lines * 2 }

/-- `if lines >= 4: self.tetris_timer = 80`. -/
def lockTetrisBanner (lines : Nat) (g : TetrisGame) : TetrisGame :=
  if lines ≥ 4 then { g with tetris_timer := 80 } else g

/-- Level recomputation, level-up banner, and fall-speed refresh at the
end of the line-clear branch. -/
def lockLevelUp (g : TetrisGame) : TetrisGame :=
  let old_level := g.level
  let g1 := { g with level := g.lines_cleared / 10 + 1 }
  let g2 := if g1.level > old_level then { g1 with level_up_timer := 90 }
    else g1
  { g2 with fall_speed := calculate_fall_speed g2.level }

/-- The line-clear branch of `lock_current_piece` (everything inside
`if full_lines:`), with the board already containing the locked piece
`p` and `full_lines` the rows found full, in the source's statement
order. -/
def lockScoreBlock (o : Oracle) (p : Tetromino) (full_lines : List Nat)
    (g : TetrisGame) : TetrisGame :=
  let lines := full_lines.length
  let g3 := lockAddLines lines (lockJumpScare o (lockArm full_lines g))
  let sp := spinBonus p lines g3
  let g4 := lockSpinBanner sp g3
  let gained := scoreGained sp lines g4
  lockLevelUp (lockTetrisBanner lines
    (lockShake lines (lockHighScore (lockAddScore gained g4))))

/-- The scan `[y for y in range(height) if all(grid[y][x] != 0 ...)]`
in `lock_current_piece`. -/
def fullLines (b : Board) : List Nat :=
  (List.range b.height).filter fun y => isFullRow b.width (b.grid.getD y [])

/-- `TetrisGame.lock_current_piece`. -/
def lock_current_piece (o : Oracle) (g : TetrisGame) : TetrisGame :=
  match g.current_piece with
  | none => g
  | some p =>
    let g1 := { g with board := g.board.lock_tetromino p }
    let full_lines := fullLines g1.board
    let g2 := if full_lines = [] then { g1 with combo := 0 }
      else lockScoreBlock o p full_lines g1
    if g2.board.is_game_over then { g2 with game_over := true }
    else if g2.clear_animation_timer = 0 then spawn_new_piece o.pieceA o.pieceB g2
    else g2

/-- The `while self.move_piece(0, 1)` loop of `hard_drop`, counting the
successful steps, with explicit fuel. -/
def hardDropAux : Nat → TetrisGame → Nat × TetrisGame
  | 0, g => (0, g)
  | fuel + 1, g =>
    let (ok, g1) := move_piece 0 1 g
    if ok then
      let (d, g2) := hardDropAux fuel g1
      (d + 1, g2)
    else (0, g1)

/-- Fuel that covers the drop loop for any piece that occupies at least
one cell: such a piece can descend fewer than `height + 4 + max 0 (-y)`
times before an occupied cell passes the bottom of the board.  (A piece
with no occupied cells would make the Python loop spin forever; that
needs `rotation_index` outside the rotation table, which raises in
Python and is unreachable.) -/
def hardDropFuel (g : TetrisGame) : Nat :=
  g.board.height + 4 +
    (match g.current_piece with
     | some p => (-p.y).toNat
     | none => 0)

/-- `TetrisGame.hard_drop`. -/
def hard_drop (o : Oracle) (g : TetrisGame) : TetrisGame :=
  match g.current_piece with
  | none => g
  | some _ =>
    if g.game_over ∨ g.paused then g
    else
      let (drop_distance, g1) := hardDropAux (hardDropFuel g) g
      let g2 := { g1 with score := g1.score + drop_distance * 2 }
      lock_current_piece o g2

/-- The `if t > 0: t -= 1` pattern used for the cosmetic timers. -/
def decayTimer (t : Nat) : Nat :=
  if t > 0 then t - 1 else t

/-- The left auto-repeat block of `update`. -/
def handleLeft (i : Input) (g : TetrisGame) : TetrisGame :=
  if i.keyLeft then
    let c := g.move_left_counter + 1
    let g1 := { g with move_left_counter := c }
    if c = 1 ∨ (c > INITIAL_MOVE_DELAY ∧ c % MOVE_DELAY = 0) then
      (move_piece (-1) 0 g1).2
    else g1
  else { g with move_left_counter := 0 }

/-- The right auto-repeat block of `update`. -/
def handleRight (i : Input) (g : TetrisGame) : TetrisGame :=
  if i.keyRight then
    let c := g.move_right_counter + 1
    let g1 := { g with move_right_counter := c }
    if c = 1 ∨ (c > INITIAL_MOVE_DELAY ∧ c % MOVE_DELAY = 0) then
      (move_piece 1 0 g1).2
    else g1
  else { g with move_right_counter := 0 }

/-- The soft-drop block of `update`. -/
def handleDown (i : Input) (g : TetrisGame) : TetrisGame :=
  if i.keyDown then
    let c := g.move_down_counter + 1
    let g1 := { g with move_down_counter := c }
    if c % max 2 (g1.fall_speed / 10) = 0 then
      let (ok, g2) := move_piece 0 1 g1
      if ¬ ok then
        if ¬ g2.piece_on_ground then
          { g2 with piece_on_ground := true, lock_delay_timer := LOCK_DELAY }
        else g2
      else { g2 with score := g2.score + 1 }
    else g1
  else { g with move_down_counter := 0 }

/-- The gravity block of `update`. -/
def handleGravity (g : TetrisGame) : TetrisGame :=
  let g0 := { g with fall_counter := g.fall_counter + 1 }
  if g0.fall_counter ≥ g0.fall_speed then
    let g1 := { g0 with fall_counter := 0 }
    let (ok, g2) := move_piece 0 1 g1
    if ok then
      { g2 with piece_on_ground := false, lock_delay_timer := 0 }
    else
      if ¬ g2.piece_on_ground then
        { g2 with piece_on_ground := true, lock_delay_timer := LOCK_DELAY }
      else g2
  else g0

/-- The lock-delay block at the end of `update`. -/
def handleLockDelay (o : Oracle) (g : TetrisGame) : TetrisGame :=
  if g.piece_on_ground then
    let g1 := { g with lock_delay_timer := g.lock_delay_timer - 1 }
    if g1.lock_delay_timer ≤ 0 then lock_current_piece o g1 else g1
  else g

/-- Everything `update` does after the pause gate. -/
def afterPause (i : Input) (o : Oracle) (g : TetrisGame) : TetrisGame :=
  let g1 := if i.keyUp ∨ i.keyX then rotate_piece true g else g
  let g2 := if i.keyZ then rotate_piece false g1 else g1
  let g3 := if i.keyC then hold_piece o g2 else g2
  if i.keySpace then hard_drop o g3
  else
    let g4 := handleLeft i g3
    let g5 := handleRight i g4
    let g6 := handleDown i g5
    let g7 := handleGravity g6
    handleLockDelay o g7

/-- `TetrisGame.update` (one frame). -/
def update (i : Input) (o : Oracle) (g : TetrisGame) : TetrisGame :=
  if g.clear_animation_timer > 0 then
    let g1 := { g with clear_animation_timer := g.clear_animation_timer - 1 }
    if g1.clear_animation_timer = 0 then
      let g2 := { g1 with board := g1.board.clear_lines.1, clearing_lines := [] }
      if ¬ g2.game_over then spawn_new_piece o.pieceA o.pieceB g2 else g2
    else g1
  else
    let g1 := { g with
      level_up_timer := decayTimer g.level_up_timer,
      score_popup_timer := decayTimer g.score_popup_timer,
      tetris_timer := decayTimer g.tetris_timer,
      shake_timer := decayTimer g.shake_timer,
      spin_message_timer := decayTimer g.spin_message_timer,
      jump_scare_timer := decayTimer g.jump_scare_timer }
    if g1.game_over then g1
    else
      let g2 := if i.keyP then { g1 with paused := ¬ g1.paused } else g1
      if g2.paused then g2
      else afterPause i o g2

/-- `TetrisGame.reset`. -/
def reset (o : Oracle) (g : TetrisGame) : TetrisGame :=
  let g1 := { g with
    board := g.board.reset,
    high_score := if g.score > g.high_score then g.score else g.high_score,
    score := 0,
    lines_cleared := (g.start_level - 1) * 10,
    level := g.start_level,
    game_over := false,
    paused := false,
    fall_counter := 0,
    fall_speed := calculate_fall_speed g.start_level,
    combo := 0,
    clearing_lines := [],
    clear_animation_timer := 0,
    level_up_timer := 0,
    score_popup := 0,
    score_popup_timer := 0,
    tetris_timer := 0,
    shake_timer := 0,
    lock_delay_timer := 0,
    piece_on_ground := false,
    held_piece := none,
    can_swap := true,
    spin_message := "",
    spin_message_timer := 0,
    last_rotation_was_spin := false,
    jump_scare_active := false,
    jump_scare_timer := 0,
    next_piece := none }
  spawn_new_piece o.pieceA o.pieceB g1

/-- `TetrisGame.__init__` (the constructor ends by spawning the first
piece, which consumes two oracle draws). -/
def init (board_width : Nat := 10) (board_height : Nat := 20)
    (start_level : Nat := 1) (o : Oracle) : TetrisGame :=
  let sl := max 1 start_level
  spawn_new_piece o.pieceA o.pieceB
    { board := mkBoard board_width board_height,
      current_piece := none,
      next_piece := none,
      held_piece := none,
      can_swap := true,
      score := 0,
      high_score := 0,
      start_level := sl,
      lines_cleared := (sl - 1) * 10,
      level := sl,
      game_over := false,
      paused := false,
      combo := 0,
      clearing_lines := [],
      clear_animation_timer := 0,
      level_up_timer := 0,
      score_popup := 0,
      score_popup_timer := 0,
      tetris_timer := 0,
      shake_timer := 0,
      spin_message := "",
      spin_message_timer := 0,
      last_rotation_was_spin := false,
      jump_scare_active := false,
      jump_scare_timer := 0,
      fall_counter := 0,
      fall_speed := calculate_fall_speed sl,
      move_left_counter := 0,
      move_right_counter := 0,
      move_down_counter := 0,
      lock_delay_timer := 0,
      piece_on_ground := false }


/-! ## Basic facts about pieces -/

lemma rotations_length_pos (t : Tetromino) : 0 < t.rotations.length := by
  rcases t with ⟨ty, i, x, y⟩
  cases ty <;> simp [Tetromino.rotations, SHAPES]

lemma rotate_clockwise_lt (t : Tetromino) :
    t.rotate_clockwise.rotation_index < t.rotate_clockwise.rotations.length := by
  have h := rotations_length_pos t
  simp only [Tetromino.rotate_clockwise, Tetromino.rotations] at *
  exact Nat.mod_lt _ h

lemma iterate_cw_inv (k : Nat) (t : Tetromino)
    (h : t.rotation_index < t.rotations.length) :
    (Tetromino.rotate_clockwise^[k] t).rotation_index <
      (Tetromino.rotate_clockwise^[k] t).rotations.length := by
  cases k with
  | zero => exact h
  | succ k =>
    rw [Function.iterate_succ_apply']
    exact rotate_clockwise_lt _

lemma rotate_ccw_rotate_cw (t : Tetromino)
    (h : t.rotation_index < t.rotations.length) :
    t.rotate_clockwise.rotate_counterclockwise = t := by
  rcases t with ⟨ty, i, x, y⟩
  simp only [Tetromino.rotations] at h
  cases ty <;>
    simp_all [Tetromino.rotate_clockwise, Tetromino.rotate_counterclockwise,
      Tetromino.rotations, SHAPES] <;> omega

/-- **C9** -- Rotation wrap: rotating clockwise `k` times and then
counterclockwise `k` times restores `rotation_index`, for every piece
whose rotation index satisfies its invariant (the index lies within the
rotation table, as it does for every piece the game ever builds). -/
theorem rotation_wrap (k : Nat) (t : Tetromino)
    (h : t.rotation_index < t.rotations.length) :
    (Tetromino.rotate_counterclockwise^[k]
      (Tetromino.rotate_clockwise^[k] t)).rotation_index = t.rotation_index := by
  induction k generalizing t with
  | zero => rfl
  | succ k ih =>
    rw [Function.iterate_succ_apply' (f := Tetromino.rotate_clockwise),
      Function.iterate_succ_apply (f := Tetromino.rotate_counterclockwise),
      rotate_ccw_rotate_cw _ (iterate_cw_inv k t h)]
    exact ih t h

/-- Witness for `rotation_wrap` at `k = 5` on a fresh T piece. -/
theorem rotation_wrap_witness :
    (mkTetromino ShapeType.T).rotation_index <
      (mkTetromino ShapeType.T).rotations.length ∧
    (Tetromino.rotate_counterclockwise^[5]
      (Tetromino.rotate_clockwise^[5] (mkTetromino ShapeType.T))).rotation_index =
      (mkTetromino ShapeType.T).rotation_index :=
  ⟨by decide, rotation_wrap 5 _ (by decide)⟩

/-! ## C2: the validity test -/

lemma blockOk_eq_false_iff (b : Board) (q : Int × Int) :
    b.blockOk q = false ↔
      q.1 < 0 ∨ q.1 ≥ (b.width : Int) ∨ q.2 ≥ (b.height : Int) ∨
        (0 ≤ q.2 ∧ b.cell q.1 q.2 ≠ 0) := by
  unfold Board.blockOk
  by_cases h1 : q.1 < 0 ∨ q.1 ≥ (b.width : Int) ∨ q.2 ≥ (b.height : Int)
  · rw [if_pos h1]
    simp only [true_iff]
    tauto
  · rw [if_neg h1]
    by_cases h2 : 0 ≤ q.2 ∧ b.cell q.1 q.2 ≠ 0
    · rw [if_pos h2]
      simp only [true_iff]
      tauto
    · rw [if_neg h2]
      simp only [Bool.true_eq_false, false_iff]
      push_neg at h1 h2 ⊢
      exact ⟨h1.1, h1.2.1, h1.2.2, h2⟩

/-- **C2** -- `is_valid_position` returns `false` exactly when some
occupied cell of the piece lies left of the board, at or right of
`width`, at or below `height`, or sits at `y ≥ 0` on a non-empty grid
cell; occupied cells with `y < 0` are exempt from the overlap test, so
a piece extending above the visible board can still be valid. -/
theorem is_valid_position_false_iff (b : Board) (t : Tetromino) :
    b.is_valid_position t = false ↔
      ∃ q ∈ t.get_blocks,
        q.1 < 0 ∨ q.1 ≥ (b.width : Int) ∨ q.2 ≥ (b.height : Int) ∨
          (0 ≤ q.2 ∧ b.cell q.1 q.2 ≠ 0) := by
  unfold Board.is_valid_position
  rw [List.all_eq_false]
  constructor
  · rintro ⟨q, hq, hok⟩
    rw [Bool.not_eq_true] at hok
    exact ⟨q, hq, (blockOk_eq_false_iff b q).mp hok⟩
  · rintro ⟨q, hq, hcond⟩
    exact ⟨q, hq, by rw [Bool.not_eq_true, blockOk_eq_false_iff b q]; exact hcond⟩


/-! ## C1: line clearing -/

lemma isFullRow_replicate_zero {w : Nat} (hw : 0 < w) :
    isFullRow w (List.replicate w 0) = false := by
  rw [isFullRow, List.all_eq_false]
  refine ⟨0, by simpa using hw, ?_⟩
  simp [List.getD, List.getElem?_replicate, hw]

lemma take_cons_eraseIdx (g : List (List Nat)) (n : Nat) (h : n ≤ g.length)
    (e : List Nat) :
    (e :: g.eraseIdx n).take (n + 1) = e :: g.take n := by
  rw [List.take_succ_cons, List.eraseIdx_eq_take_drop_succ,
    List.take_append_eq_append_take, List.take_take]
  simp [Nat.min_self, List.length_take, Nat.min_eq_left h]

lemma drop_cons_eraseIdx (g : List (List Nat)) (n : Nat) (h : n ≤ g.length)
    (e : List Nat) :
    (e :: g.eraseIdx n).drop (n + 1) = g.drop (n + 1) := by
  rw [List.drop_succ_cons, List.eraseIdx_eq_take_drop_succ,
    List.drop_append_eq_append_drop]
  simp [List.length_take, Nat.min_eq_left h]

/-- The invariant of the `clear_lines` loop: with `n` rows left to
scan, enough fuel, and positive width, the loop replaces the first `n`
rows by their non-full members, prepends one fresh empty row per full
row dropped, and counts the full rows. -/
lemma clearLinesAux_spec {w : Nat} (hw : 0 < w) :
    ∀ (fuel : Nat) (g : List (List Nat)) (n acc : Nat),
      n ≤ g.length →
      n + (g.take n).countP (fun r => isFullRow w r) ≤ fuel →
      clearLinesAux w fuel g n acc =
        (List.replicate ((g.take n).countP (fun r => isFullRow w r))
            (List.replicate w 0)
          ++ (g.take n).filter (fun r => !(isFullRow w r)) ++ g.drop n,
         acc + (g.take n).countP (fun r => isFullRow w r)) := by
  intro fuel
  induction fuel with
  | zero =>
    intro g n acc hn hf
    have hn0 : n = 0 := by omega
    subst hn0
    simp [clearLinesAux]
  | succ fuel ih =>
    intro g n acc hn hf
    cases n with
    | zero => simp [clearLinesAux]
    | succ n =>
      have hlt : n < g.length := hn
      have hgd : g.getD n [] = g[n] := List.getD_eq_getElem g [] hlt
      have htake : g.take (n + 1) = g.take n ++ [g[n]] := by
        rw [List.take_succ]
        simp [List.getElem?_eq_getElem hlt]
      simp only [clearLinesAux]
      by_cases hfull : isFullRow w (g.getD n []) = true
      · rw [if_pos hfull]
        rw [hgd] at hfull
        have hcount : (g.take (n + 1)).countP (fun r => isFullRow w r) =
            (g.take n).countP (fun r => isFullRow w r) + 1 := by
          rw [htake, List.countP_append]
          simp [List.countP_cons, hfull]
        set e := List.replicate w 0 with he
        have herase : (g.eraseIdx n).length = g.length - 1 := by
          rw [List.length_eraseIdx, if_pos hlt]
        have hlen' : (e :: g.eraseIdx n).length = g.length := by
          simp only [List.length_cons, herase]
          omega
        have hfuel' : (n + 1) + ((e :: g.eraseIdx n).take (n + 1)).countP
            (fun r => isFullRow w r) ≤ fuel := by
          rw [take_cons_eraseIdx g n hlt.le e, List.countP_cons]
          simp only [he, isFullRow_replicate_zero hw, Bool.false_eq_true,
            if_false]
          omega
        have hrec := ih (e :: g.eraseIdx n) (n + 1) (acc + 1)
          (by rw [hlen']; omega) hfuel'
        rw [hrec]
        have htake' : (e :: g.eraseIdx n).take (n + 1) = e :: g.take n :=
          take_cons_eraseIdx g n hlt.le e
        have hdrop' : (e :: g.eraseIdx n).drop (n + 1) = g.drop (n + 1) :=
          drop_cons_eraseIdx g n hlt.le e
        have hcount' : ((e :: g.eraseIdx n).take (n + 1)).countP
            (fun r => isFullRow w r) =
            (g.take n).countP (fun r => isFullRow w r) := by
          rw [htake', List.countP_cons]
          simp [he, isFullRow_replicate_zero hw]
        have hfilter' : ((e :: g.eraseIdx n).take (n + 1)).filter
            (fun r => !(isFullRow w r)) =
            e :: (g.take n).filter (fun r => !(isFullRow w r)) := by
          rw [htake', List.filter_cons]
          simp [he, isFullRow_replicate_zero hw]
        have hfilter : (g.take (n + 1)).filter (fun r => !(isFullRow w r)) =
            (g.take n).filter (fun r => !(isFullRow w r)) := by
          rw [htake, List.filter_append]
          simp [hfull]
        rw [Prod.mk.injEq]
        constructor
        · rw [hcount', hfilter', hdrop', hcount, hfilter,
            List.replicate_succ']
          simp [List.append_assoc]
        · rw [hcount', hcount]
          omega
      · rw [if_neg hfull]
        rw [hgd] at hfull
        have hfull' : isFullRow w g[n] = false := by
          cases hx : isFullRow w g[n]
          · rfl
          · exact absurd hx hfull
        have hcount : (g.take (n + 1)).countP (fun r => isFullRow w r) =
            (g.take n).countP (fun r => isFullRow w r) := by
          rw [htake, List.countP_append]
          simp [List.countP_cons, hfull']
        have hrec := ih g n acc (by omega) (by omega)
        rw [hrec, Prod.mk.injEq]
        constructor
        · have hfilter : (g.take (n + 1)).filter (fun r => !(isFullRow w r)) =
              (g.take n).filter (fun r => !(isFullRow w r)) ++ [g[n]] := by
            rw [htake, List.filter_append]
            simp [hfull']
          have hdrop : g.drop n = g[n] :: g.drop (n + 1) :=
            List.drop_eq_getElem_cons hlt
          rw [hcount, hfilter, hdrop]
          simp [List.append_assoc]
        · rw [hcount]

/-- What the spec says `clear_lines` leaves behind: one fresh empty
row per full row, followed by the non-full rows in their original
order. -/
def clearedGrid (w : Nat) (g : List (List Nat)) : List (List Nat) :=
  List.replicate (g.countP (fun r => isFullRow w r)) (List.replicate w 0)
    ++ g.filter (fun r => !(isFullRow w r))

/-- **C1** -- `clear_lines` removes exactly the rows whose `width`
cells are all non-empty, prepends one empty row per removed row,
preserves the remaining rows (contents and relative order), and
returns the number of rows that were full before the call.  Stated for
boards of positive width; on a degenerate width-0 board the Python
loop never terminates. -/
theorem clear_lines_spec (b : Board) (hw : 0 < b.width) :
    b.clear_lines =
      ({ b with grid := clearedGrid b.width b.grid },
       b.grid.countP (fun r => isFullRow b.width r)) := by
  unfold Board.clear_lines
  rw [clearLinesAux_spec hw _ b.grid b.grid.length 0 le_rfl
    (by rw [List.take_length]; omega)]
  simp [clearedGrid, List.take_length, List.drop_length]

/-- Witness for `clear_lines_spec` on a 3×3 board whose top and bottom
rows are full. -/
theorem clear_lines_spec_witness :
    0 < (Board.mk 3 3 [[1, 1, 1], [0, 2, 0], [3, 3, 3]]).width ∧
    (Board.mk 3 3 [[1, 1, 1], [0, 2, 0], [3, 3, 3]]).clear_lines =
      (Board.mk 3 3 [[0, 0, 0], [0, 0, 0], [0, 2, 0]], 2) := by
  refine ⟨by decide, ?_⟩
  rw [clear_lines_spec _ (by decide)]
  decide


/-! ## C5: `move_piece(0, 0)` -/

/-- **C5 counterexample** -- a game state (reachable up to board/flag
choice: fresh game, piece resting on ground with lock-delay expired)
in which `move_piece 0 0` succeeds but changes the lock-delay timer
from 0 to 5, refuting "never mutates lock-delay state". -/
theorem move_zero_mutates_lock_delay :
    (move_piece 0 0 { init 10 20 1 ⟨ShapeType.T, ShapeType.I, false⟩ with piece_on_ground := true }).1 = true ∧
    ({ init 10 20 1 ⟨ShapeType.T, ShapeType.I, false⟩ with piece_on_ground := true } : TetrisGame).lock_delay_timer = 0 ∧
    (move_piece 0 0 { init 10 20 1 ⟨ShapeType.T, ShapeType.I, false⟩ with piece_on_ground := true }).2.lock_delay_timer = 5 := by
  refine ⟨?_, ?_, ?_⟩ <;> decide

/-- **C5 amended** -- when a current piece exists, the game is neither
over nor paused, and the piece's present position is valid,
`move_piece 0 0` succeeds and leaves the piece and the on-ground flag
unchanged; the lock-delay timer is unchanged when the piece is not on
the ground, and is extended to `min (timer + 5) 15` when it is. -/
theorem move_zero_noop (g : TetrisGame) (p : Tetromino)
    (hp : g.current_piece = some p)
    (hgo : g.game_over = false) (hpa : g.paused = false)
    (hv : g.board.is_valid_position p = true) :
    (move_piece 0 0 g).1 = true ∧
    (move_piece 0 0 g).2.current_piece = g.current_piece ∧
    (move_piece 0 0 g).2.piece_on_ground = g.piece_on_ground ∧
    (move_piece 0 0 g).2.lock_delay_timer =
      (if g.piece_on_ground then
        min (g.lock_delay_timer + LOCK_DELAY_EXTENSION) LOCK_DELAY
       else g.lock_delay_timer) := by
  have hmoved : { p with x := p.x + 0, y := p.y + 0 } = p := by
    simp
  simp only [move_piece, hp, hgo, hpa, hmoved, false_or, Bool.false_eq_true,
    if_false, hv, Bool.true_eq_false, not_true]
  by_cases hg : g.piece_on_ground <;> simp [hg, hp]

/-- Witness for `move_zero_noop` on a fresh default game. -/
theorem move_zero_noop_witness :
    (move_piece 0 0 (init 10 20 1 ⟨ShapeType.T, ShapeType.I, false⟩)).1 = true ∧
    (move_piece 0 0 (init 10 20 1 ⟨ShapeType.T, ShapeType.I, false⟩)).2.current_piece =
      (init 10 20 1 ⟨ShapeType.T, ShapeType.I, false⟩).current_piece ∧
    (move_piece 0 0 (init 10 20 1 ⟨ShapeType.T, ShapeType.I, false⟩)).2.piece_on_ground =
      (init 10 20 1 ⟨ShapeType.T, ShapeType.I, false⟩).piece_on_ground ∧
    (move_piece 0 0 (init 10 20 1 ⟨ShapeType.T, ShapeType.I, false⟩)).2.lock_delay_timer =
      (if (init 10 20 1 ⟨ShapeType.T, ShapeType.I, false⟩).piece_on_ground then
        min ((init 10 20 1 ⟨ShapeType.T, ShapeType.I, false⟩).lock_delay_timer + LOCK_DELAY_EXTENSION) LOCK_DELAY
       else (init 10 20 1 ⟨ShapeType.T, ShapeType.I, false⟩).lock_delay_timer) :=
  move_zero_noop _ (mkTetromino ShapeType.T 3 0) (by decide) (by decide)
    (by decide) (by decide)

/-! ## C6: failed moves and rotations revert -/

lemma rotate_cw_rotate_ccw (t : Tetromino)
    (h : t.rotation_index < t.rotations.length) :
    t.rotate_counterclockwise.rotate_clockwise = t := by
  rcases t with ⟨ty, i, x, y⟩
  simp only [Tetromino.rotations] at h
  cases ty <;>
    simp_all [Tetromino.rotate_clockwise, Tetromino.rotate_counterclockwise,
      Tetromino.rotations, SHAPES] <;> omega

/-- Replacing `current_piece` by its own value is the identity
(structure eta). -/
lemma set_current_eta (g : TetrisGame) (q : Option Tetromino)
    (hq : q = g.current_piece) :
    ({ g with current_piece := q } : TetrisGame) = g := by
  subst hq
  rfl

/-- **C6** -- a failed `move_piece` leaves the whole state (in
particular the piece position) exactly as before, and a rotation for
which no wall-kick offset validates leaves the piece's position and
rotation index as before (for pieces satisfying the rotation-index
invariant), with the board untouched. -/
theorem failed_ops_revert :
    (∀ (g : TetrisGame) (dx dy : Int),
        (move_piece dx dy g).1 = false → (move_piece dx dy g).2 = g) ∧
    (∀ (g : TetrisGame) (p : Tetromino) (clockwise : Bool),
        g.current_piece = some p →
        p.rotation_index < p.rotations.length →
        kickResult g.board
          (if clockwise then p.rotate_clockwise else p.rotate_counterclockwise) =
          none →
        (rotate_piece clockwise g).current_piece = some p ∧
        (rotate_piece clockwise g).board = g.board) := by
  constructor
  · intro g dx dy hfail
    rcases hp : g.current_piece with _ | p
    · simp [move_piece, hp]
    · by_cases hguard : g.game_over ∨ g.paused
      · simp [move_piece, hp, hguard]
      · simp only [move_piece, hp, hguard, if_false] at hfail ⊢
        by_cases hvalid :
            g.board.is_valid_position { p with x := p.x + dx, y := p.y + dy } = true
        · exfalso
          by_cases hg : g.piece_on_ground <;> simp [hvalid, hg] at hfail
        · rw [if_pos (by simpa using hvalid)]
          exact set_current_eta g _ (by rw [hp]; simp)
  · intro g p clockwise hp hinv hkick
    by_cases hguard : g.game_over ∨ g.paused
    · simp [rotate_piece, hp, hguard]
    · simp only [rotate_piece, hp, hguard, if_false]
      rw [hkick]
      cases clockwise
      · simpa using rotate_cw_rotate_ccw p hinv
      · simpa using rotate_ccw_rotate_cw p hinv

/-- Witness for `failed_ops_revert`: on a fresh 4×2 game with an I
piece, moving left fails and reverts, and clockwise rotation (vertical
I cannot fit a height-2 board at any kick offset) reverts. -/
theorem failed_ops_revert_witness :
    (move_piece (-1) 0 (init 4 2 1 ⟨ShapeType.I, ShapeType.I, false⟩)).1 = false ∧
    (move_piece (-1) 0 (init 4 2 1 ⟨ShapeType.I, ShapeType.I, false⟩)).2 =
      init 4 2 1 ⟨ShapeType.I, ShapeType.I, false⟩ ∧
    (rotate_piece true (init 4 2 1 ⟨ShapeType.I, ShapeType.I, false⟩)).current_piece =
      some (mkTetromino ShapeType.I 0 0) ∧
    (rotate_piece true (init 4 2 1 ⟨ShapeType.I, ShapeType.I, false⟩)).board =
      (init 4 2 1 ⟨ShapeType.I, ShapeType.I, false⟩).board := by
  refine ⟨by decide, failed_ops_revert.1 _ (-1) 0 (by decide), ?_, ?_⟩
  · exact (failed_ops_revert.2 _ (mkTetromino ShapeType.I 0 0) true
      (by decide) (by decide) (by decide)).1
  · exact (failed_ops_revert.2 _ (mkTetromino ShapeType.I 0 0) true
      (by decide) (by decide) (by decide)).2


/-! ## C7: spin detection -/

/-- The four corner coordinates named by the spec: offsets 0 and +2 in
each axis from the piece's position. -/
def specCorners (p : Tetromino) : List (Int × Int) :=
  [(p.x, p.y), (p.x + 2, p.y), (p.x, p.y + 2), (p.x + 2, p.y + 2)]

/-- The spec's notion of an occupied corner: outside the board bounds,
or on a non-empty grid cell. -/
def specCornerOccupied (b : Board) (c : Int × Int) : Bool :=
  decide (c.1 < 0 ∨ c.1 ≥ (b.width : Int) ∨ c.2 < 0 ∨ c.2 ≥ (b.height : Int) ∨
    b.cell c.1 c.2 ≠ 0)

lemma corner_pred_eq (b : Board) (c : Int × Int) :
    (decide (c.1 < 0 ∨ c.1 ≥ (b.width : Int) ∨ c.2 < 0 ∨ c.2 ≥ (b.height : Int) ∨
      b.get_cell c.1 c.2 ≠ 0)) = specCornerOccupied b c := by
  unfold specCornerOccupied Board.get_cell
  by_cases hin : 0 ≤ c.1 ∧ c.1 < (b.width : Int) ∧ 0 ≤ c.2 ∧ c.2 < (b.height : Int)
  · rw [if_pos hin]
  · rw [if_neg hin]
    have hout : c.1 < 0 ∨ c.1 ≥ (b.width : Int) ∨ c.2 < 0 ∨ c.2 ≥ (b.height : Int) := by
      push_neg at hin
      by_cases h1 : c.1 < 0
      · exact Or.inl h1
      · by_cases h2 : (b.width : Int) ≤ c.1
        · exact Or.inr (Or.inl h2)
        · by_cases h3 : c.2 < 0
          · exact Or.inr (Or.inr (Or.inl h3))
          · exact Or.inr (Or.inr (Or.inr (by
              push_neg at h1 h2 h3
              exact hin h1 h2 h3)))
    rw [decide_eq_true (by tauto), decide_eq_true (by tauto)]

lemma check_spin_eq (g : TetrisGame) (p2 : Tetromino)
    (hp2 : g.current_piece = some p2) :
    check_spin g =
      decide (3 ≤ (specCorners p2).countP (specCornerOccupied g.board)) := by
  unfold check_spin
  rw [hp2]
  simp only [specCorners]
  congr 1
  rw [show ((3 : Nat) ≤ List.countP (specCornerOccupied g.board)
      [(p2.x, p2.y), (p2.x + 2, p2.y), (p2.x, p2.y + 2), (p2.x + 2, p2.y + 2)]) =
      ((3 : Nat) ≤ List.countP (specCornerOccupied g.board)
      [(p2.x + 0, p2.y + 0), (p2.x + 2, p2.y + 0), (p2.x + 0, p2.y + 2), (p2.x + 2, p2.y + 2)]) by
    simp]
  congr 1
  refine List.countP_congr ?_
  intro c _
  rw [corner_pred_eq g.board c]

/-- **C7** -- after a successful rotation (in place or via a wall
kick) the spin flag is set exactly when the rotated piece's shape is
T, S or Z and at least 3 of the 4 corners at offsets 0/+2 from its
position are occupied, where a corner is occupied iff it lies outside
the board bounds or on a non-empty cell; for other shapes the flag is
cleared. -/
theorem spin_flag_spec (g : TetrisGame) (p p2 : Tetromino) (clockwise : Bool)
    (hp : g.current_piece = some p)
    (hgo : g.game_over = false) (hpa : g.paused = false)
    (hk : kickResult g.board
      (if clockwise then p.rotate_clockwise else p.rotate_counterclockwise) =
      some p2) :
    (rotate_piece clockwise g).last_rotation_was_spin =
      (if p2.shape_type ∈ [ShapeType.T, ShapeType.S, ShapeType.Z] then
        decide (3 ≤ (specCorners p2).countP (specCornerOccupied g.board))
       else false) := by
  simp only [rotate_piece, hp, hgo, hpa, false_or, Bool.false_eq_true, if_false,
    hk]
  by_cases hmem : p2.shape_type ∈ [ShapeType.T, ShapeType.S, ShapeType.Z]
  · rw [if_pos hmem]
    by_cases hg : g.piece_on_ground = true <;>
      (simp [hg, hmem]; exact check_spin_eq _ p2 rfl)
  · rw [if_neg hmem]
    by_cases hg : g.piece_on_ground = true <;>
      simp [hg, hmem]

/-- Witness for `spin_flag_spec`: clockwise rotation of the freshly
spawned T piece on the default empty board succeeds in place and sets
no spin flag (no corner is occupied). -/
theorem spin_flag_spec_witness :
    (rotate_piece true (init 10 20 1 ⟨ShapeType.T, ShapeType.I, false⟩)).last_rotation_was_spin =
      (if (Tetromino.mk ShapeType.T 1 3 0).shape_type ∈ [ShapeType.T, ShapeType.S, ShapeType.Z] then
        decide (3 ≤ (specCorners (Tetromino.mk ShapeType.T 1 3 0)).countP
          (specCornerOccupied (init 10 20 1 ⟨ShapeType.T, ShapeType.I, false⟩).board))
       else false) :=
  spin_flag_spec _ (mkTetromino ShapeType.T) (Tetromino.mk ShapeType.T 1 3 0) true
    (by decide) (by decide) (by decide) (by decide)


/-! ## Field bookkeeping for the lock-score pipeline -/

@[simp] lemma lockArm_score (fl : List Nat) (g : TetrisGame) :
    (lockArm fl g).score = g.score := rfl
@[simp] lemma lockArm_lines (fl : List Nat) (g : TetrisGame) :
    (lockArm fl g).lines_cleared = g.lines_cleared := rfl
@[simp] lemma lockArm_combo (fl : List Nat) (g : TetrisGame) :
    (lockArm fl g).combo = g.combo + 1 := rfl
@[simp] lemma lockArm_level (fl : List Nat) (g : TetrisGame) :
    (lockArm fl g).level = g.level := rfl
@[simp] lemma lockArm_board (fl : List Nat) (g : TetrisGame) :
    (lockArm fl g).board = g.board := rfl
@[simp] lemma lockArm_game_over (fl : List Nat) (g : TetrisGame) :
    (lockArm fl g).game_over = g.game_over := rfl
@[simp] lemma lockArm_spin (fl : List Nat) (g : TetrisGame) :
    (lockArm fl g).last_rotation_was_spin = g.last_rotation_was_spin := rfl
@[simp] lemma lockArm_anim (fl : List Nat) (g : TetrisGame) :
    (lockArm fl g).clear_animation_timer = 8 := rfl

@[simp] lemma lockJumpScare_score (o : Oracle) (g : TetrisGame) :
    (lockJumpScare o g).score = g.score := by
  unfold lockJumpScare; split <;> rfl
@[simp] lemma lockJumpScare_lines (o : Oracle) (g : TetrisGame) :
    (lockJumpScare o g).lines_cleared = g.lines_cleared := by
  unfold lockJumpScare; split <;> rfl
@[simp] lemma lockJumpScare_combo (o : Oracle) (g : TetrisGame) :
    (lockJumpScare o g).combo = g.combo := by
  unfold lockJumpScare; split <;> rfl
@[simp] lemma lockJumpScare_level (o : Oracle) (g : TetrisGame) :
    (lockJumpScare o g).level = g.level := by
  unfold lockJumpScare; split <;> rfl
@[simp] lemma lockJumpScare_board (o : Oracle) (g : TetrisGame) :
    (lockJumpScare o g).board = g.board := by
  unfold lockJumpScare; split <;> rfl
@[simp] lemma lockJumpScare_game_over (o : Oracle) (g : TetrisGame) :
    (lockJumpScare o g).game_over = g.game_over := by
  unfold lockJumpScare; split <;> rfl
@[simp] lemma lockJumpScare_spin (o : Oracle) (g : TetrisGame) :
    (lockJumpScare o g).last_rotation_was_spin = g.last_rotation_was_spin := by
  unfold lockJumpScare; split <;> rfl
@[simp] lemma lockJumpScare_anim (o : Oracle) (g : TetrisGame) :
    (lockJumpScare o g).clear_animation_timer = g.clear_animation_timer := by
  unfold lockJumpScare; split <;> rfl

@[simp] lemma lockAddLines_score (n : Nat) (g : TetrisGame) :
    (lockAddLines n g).score = g.score := rfl
@[simp] lemma lockAddLines_lines (n : Nat) (g : TetrisGame) :
    (lockAddLines n g).lines_cleared = g.lines_cleared + n := rfl
@[simp] lemma lockAddLines_combo (n : Nat) (g : TetrisGame) :
    (lockAddLines n g).combo = g.combo := rfl
@[simp] lemma lockAddLines_level (n : Nat) (g : TetrisGame) :
    (lockAddLines n g).level = g.level := rfl
@[simp] lemma lockAddLines_board (n : Nat) (g : TetrisGame) :
    (lockAddLines n g).board = g.board := rfl
@[simp] lemma lockAddLines_game_over (n : Nat) (g : TetrisGame) :
    (lockAddLines n g).game_over = g.game_over := rfl
@[simp] lemma lockAddLines_spin (n : Nat) (g : TetrisGame) :
    (lockAddLines n g).last_rotation_was_spin = g.last_rotation_was_spin := rfl
@[simp] lemma lockAddLines_anim (n : Nat) (g : TetrisGame) :
    (lockAddLines n g).clear_animation_timer = g.clear_animation_timer := rfl

@[simp] lemma lockSpinBanner_score (sp : Nat × String) (g : TetrisGame) :
    (lockSpinBanner sp g).score = g.score := by
  unfold lockSpinBanner; split <;> rfl
@[simp] lemma lockSpinBanner_lines (sp : Nat × String) (g : TetrisGame) :
    (lockSpinBanner sp g).lines_cleared = g.lines_cleared := by
  unfold lockSpinBanner; split <;> rfl
@[simp] lemma lockSpinBanner_combo (sp : Nat × String) (g : TetrisGame) :
    (lockSpinBanner sp g).combo = g.combo := by
  unfold lockSpinBanner; split <;> rfl
@[simp] lemma lockSpinBanner_level (sp : Nat × String) (g : TetrisGame) :
    (lockSpinBanner sp g).level = g.level := by
  unfold lockSpinBanner; split <;> rfl
@[simp] lemma lockSpinBanner_board (sp : Nat × String) (g : TetrisGame) :
    (lockSpinBanner sp g).board = g.board := by
  unfold lockSpinBanner; split <;> rfl
@[simp] lemma lockSpinBanner_game_over (sp : Nat × String) (g : TetrisGame) :
    (lockSpinBanner sp g).game_over = g.game_over := by
  unfold lockSpinBanner; split <;> rfl
@[simp] lemma lockSpinBanner_anim (sp : Nat × String) (g : TetrisGame) :
    (lockSpinBanner sp g).clear_animation_timer = g.clear_animation_timer := by
  unfold lockSpinBanner; split <;> rfl

@[simp] lemma lockAddScore_score (n : Nat) (g : TetrisGame) :
    (lockAddScore n g).score = g.score + n := rfl
@[simp] lemma lockAddScore_lines (n : Nat) (g : TetrisGame) :
    (lockAddScore n g).lines_cleared = g.lines_cleared := rfl
@[simp] lemma lockAddScore_combo (n : Nat) (g : TetrisGame) :
    (lockAddScore n g).combo = g.combo := rfl
@[simp] lemma lockAddScore_level (n : Nat) (g : TetrisGame) :
    (lockAddScore n g).level = g.level := rfl
@[simp] lemma lockAddScore_board (n : Nat) (g : TetrisGame) :
    (lockAddScore n g).board = g.board := rfl
@[simp] lemma lockAddScore_game_over (n : Nat) (g : TetrisGame) :
    (lockAddScore n g).game_over = g.game_over := rfl
@[simp] lemma lockAddScore_anim (n : Nat) (g : TetrisGame) :
    (lockAddScore n g).clear_animation_timer = g.clear_animation_timer := rfl

@[simp] lemma lockHighScore_score (g : TetrisGame) :
    (lockHighScore g).score = g.score := by
  unfold lockHighScore; split <;> rfl
@[simp] lemma lockHighScore_lines (g : TetrisGame) :
    (lockHighScore g).lines_cleared = g.lines_cleared := by
  unfold lockHighScore; split <;> rfl
@[simp] lemma lockHighScore_combo (g : TetrisGame) :
    (lockHighScore g).combo = g.combo := by
  unfold lockHighScore; split <;> rfl
@[simp] lemma lockHighScore_level (g : TetrisGame) :
    (lockHighScore g).level = g.level := by
  unfold lockHighScore; split <;> rfl
@[simp] lemma lockHighScore_board (g : TetrisGame) :
    (lockHighScore g).board = g.board := by
  unfold lockHighScore; split <;> rfl
@[simp] lemma lockHighScore_game_over (g : TetrisGame) :
    (lockHighScore g).game_over = g.game_over := by
  unfold lockHighScore; split <;> rfl
@[simp] lemma lockHighScore_anim (g : TetrisGame) :
    (lockHighScore g).clear_animation_timer = g.clear_animation_timer := by
  unfold lockHighScore; split <;> rfl

@[simp] lemma lockShake_score (n : Nat) (g : TetrisGame) :
    (lockShake n g).score = g.score := rfl
@[simp] lemma lockShake_lines (n : Nat) (g : TetrisGame) :
    (lockShake n g).lines_cleared = g.lines_cleared := rfl
@[simp] lemma lockShake_combo (n : Nat) (g : TetrisGame) :
    (lockShake n g).combo = g.combo := rfl
@[simp] lemma lockShake_level (n : Nat) (g : TetrisGame) :
    (lockShake n g).level = g.level := rfl
@[simp] lemma lockShake_board (n : Nat) (g : TetrisGame) :
    (lockShake n g).board = g.board := rfl
@[simp] lemma lockShake_game_over (n : Nat) (g : TetrisGame) :
    (lockShake n g).game_over = g.game_over := rfl
@[simp] lemma lockShake_anim (n : Nat) (g : TetrisGame) :
    (lockShake n g).clear_animation_timer = g.clear_animation_timer := rfl

@[simp] lemma lockTetrisBanner_score (n : Nat) (g : TetrisGame) :
    (lockTetrisBanner n g).score = g.score := by
  unfold lockTetrisBanner; split <;> rfl
@[simp] lemma lockTetrisBanner_lines (n : Nat) (g : TetrisGame) :
    (lockTetrisBanner n g).lines_cleared = g.lines_cleared := by
  unfold lockTetrisBanner; split <;> rfl
@[simp] lemma lockTetrisBanner_combo (n : Nat) (g : TetrisGame) :
    (lockTetrisBanner n g).combo = g.combo := by
  unfold lockTetrisBanner; split <;> rfl
@[simp] lemma lockTetrisBanner_level (n : Nat) (g : TetrisGame) :
    (lockTetrisBanner n g).level = g.level := by
  unfold lockTetrisBanner; split <;> rfl
@[simp] lemma lockTetrisBanner_board (n : Nat) (g : TetrisGame) :
    (lockTetrisBanner n g).board = g.board := by
  unfold lockTetrisBanner; split <;> rfl
@[simp] lemma lockTetrisBanner_game_over (n : Nat) (g : TetrisGame) :
    (lockTetrisBanner n g).game_over = g.game_over := by
  unfold lockTetrisBanner; split <;> rfl
@[simp] lemma lockTetrisBanner_anim (n : Nat) (g : TetrisGame) :
    (lockTetrisBanner n g).clear_animation_timer = g.clear_animation_timer := by
  unfold lockTetrisBanner; split <;> rfl

@[simp] lemma lockLevelUp_score (g : TetrisGame) :
    (lockLevelUp g).score = g.score := by
  simp only [lockLevelUp]; split <;> rfl
@[simp] lemma lockLevelUp_lines (g : TetrisGame) :
    (lockLevelUp g).lines_cleared = g.lines_cleared := by
  simp only [lockLevelUp]; split <;> rfl
@[simp] lemma lockLevelUp_combo (g : TetrisGame) :
    (lockLevelUp g).combo = g.combo := by
  simp only [lockLevelUp]; split <;> rfl
@[simp] lemma lockLevelUp_level (g : TetrisGame) :
    (lockLevelUp g).level = g.lines_cleared / 10 + 1 := by
  simp only [lockLevelUp]; split <;> rfl
@[simp] lemma lockLevelUp_board (g : TetrisGame) :
    (lockLevelUp g).board = g.board := by
  simp only [lockLevelUp]; split <;> rfl
@[simp] lemma lockLevelUp_game_over (g : TetrisGame) :
    (lockLevelUp g).game_over = g.game_over := by
  simp only [lockLevelUp]; split <;> rfl
@[simp] lemma lockLevelUp_anim (g : TetrisGame) :
    (lockLevelUp g).clear_animation_timer = g.clear_animation_timer := by
  simp only [lockLevelUp]; split <;> rfl

lemma lockScoreBlock_single (o : Oracle) (p : Tetromino) (fl : List Nat)
    (g : TetrisGame) (hsp : g.last_rotation_was_spin = false)
    (hlv : g.level = 1) (hc : g.combo = 0) (hlen : fl.length = 1)
    (hlc : g.lines_cleared + 1 < 10) :
    (lockScoreBlock o p fl g).lines_cleared = g.lines_cleared + 1 ∧
    (lockScoreBlock o p fl g).score = g.score + 100 ∧
    (lockScoreBlock o p fl g).combo = 1 ∧
    (lockScoreBlock o p fl g).level = 1 ∧
    (lockScoreBlock o p fl g).clear_animation_timer = 8 ∧
    (lockScoreBlock o p fl g).board = g.board ∧
    (lockScoreBlock o p fl g).game_over = g.game_over := by
  unfold lockScoreBlock
  have hspin : spinBonus p fl.length
      (lockAddLines fl.length (lockJumpScare o (lockArm fl g))) = (0, "") := by
    unfold spinBonus
    rw [if_neg]
    simp [hsp]
  rw [hlen] at hspin ⊢
  dsimp only
  rw [hspin]
  have hgain : ∀ g4 : TetrisGame, g4.level = 1 → g4.combo = 1 →
      scoreGained (0, "") 1 g4 = 100 := by
    intro g4 h1 h2
    unfold scoreGained
    simp [h1, h2]
  rw [hgain _ (by simp [hlv]) (by simp [hc])]
  refine ⟨by simp, by simp, by simp [hc], ?_, by simp, by simp, by simp⟩
  simp only [lockLevelUp_level, lockTetrisBanner_lines, lockShake_lines,
    lockHighScore_lines, lockAddScore_lines, lockSpinBanner_lines,
    lockAddLines_lines, lockJumpScare_lines, lockArm_lines]
  omega

/-- **C4** -- single line clear at level 1: with combo 0 and no spin
flag, locking a piece that leaves exactly one full row adds 1 to the
lines-cleared total, adds exactly 100 to the score (base 100 × level
1, no spin or combo bonus), sets the combo to 1, and leaves the level
at 1 while the total stays below 10. -/
theorem single_line_clear (o : Oracle) (g : TetrisGame) (p : Tetromino)
    (hp : g.current_piece = some p) (hlv : g.level = 1) (hc : g.combo = 0)
    (hsp : g.last_rotation_was_spin = false)
    (hfl : (fullLines (g.board.lock_tetromino p)).length = 1)
    (hlc : g.lines_cleared + 1 < 10) :
    (lock_current_piece o g).lines_cleared = g.lines_cleared + 1 ∧
    (lock_current_piece o g).score = g.score + 100 ∧
    (lock_current_piece o g).combo = 1 ∧
    (lock_current_piece o g).level = 1 := by
  have hne : fullLines (g.board.lock_tetromino p) ≠ [] := by
    intro h
    rw [h] at hfl
    simp at hfl
  obtain ⟨L1, L2, L3, L4, L5, L6, L7⟩ :=
    lockScoreBlock_single o p (fullLines (g.board.lock_tetromino p))
      { g with board := g.board.lock_tetromino p, current_piece := some p }
      hsp hlv hc hfl hlc
  simp only [lock_current_piece, hp]
  rw [if_neg hne]
  split
  · exact ⟨L1, L2, L3, L4⟩
  · split
    · next h =>
        rw [L5] at h
        exact absurd h (by decide)
    · exact ⟨L1, L2, L3, L4⟩

/-- Witness for `single_line_clear`: an I piece at the bottom-left of
an empty 4×2 board completes the bottom row. -/
theorem single_line_clear_witness :
    (lock_current_piece ⟨ShapeType.I, ShapeType.I, false⟩
        { init 4 2 1 ⟨ShapeType.I, ShapeType.I, false⟩ with score := 7 }).lines_cleared =
      ({ init 4 2 1 ⟨ShapeType.I, ShapeType.I, false⟩ with score := 7 } : TetrisGame).lines_cleared + 1 ∧
    (lock_current_piece ⟨ShapeType.I, ShapeType.I, false⟩
        { init 4 2 1 ⟨ShapeType.I, ShapeType.I, false⟩ with score := 7 }).score =
      ({ init 4 2 1 ⟨ShapeType.I, ShapeType.I, false⟩ with score := 7 } : TetrisGame).score + 100 ∧
    (lock_current_piece ⟨ShapeType.I, ShapeType.I, false⟩
        { init 4 2 1 ⟨ShapeType.I, ShapeType.I, false⟩ with score := 7 }).combo = 1 ∧
    (lock_current_piece ⟨ShapeType.I, ShapeType.I, false⟩
        { init 4 2 1 ⟨ShapeType.I, ShapeType.I, false⟩ with score := 7 }).level = 1 :=
  single_line_clear ⟨ShapeType.I, ShapeType.I, false⟩ _
    (mkTetromino ShapeType.I 0 0) (by decide) (by decide) (by decide)
    (by decide) (by decide) (by decide)


/-! ## C10: hold-swap skips spawn validation -/

/-- **C10** -- swapping with an already-held piece repositions the
swapped-in piece at the spawn column and row 0 with no validity check:
the game-over flag keeps its (false) value whatever the board holds,
the board itself is untouched, and the lock-delay state is reset.  By
contrast `spawn_new_piece` always validates its candidate and turns
the game-over flag on exactly when that candidate's position is
invalid. -/
theorem hold_swap_no_validation (o : Oracle) (g : TetrisGame)
    (p hp2 : Tetromino)
    (hcs : g.can_swap = true) (hgo : g.game_over = false)
    (hpa : g.paused = false) (hp : g.current_piece = some p)
    (hh : g.held_piece = some hp2) :
    (hold_piece o g).game_over = false ∧
    (hold_piece o g).current_piece =
      some (Tetromino.mk hp2.shape_type 0 (((g.board.width / 2 : Nat) : Int) - 2) 0) ∧
    (hold_piece o g).held_piece = some (mkTetromino p.shape_type) ∧
    (hold_piece o g).lock_delay_timer = 0 ∧
    (hold_piece o g).piece_on_ground = false ∧
    (hold_piece o g).can_swap = false ∧
    (hold_piece o g).board = g.board ∧
    (∀ (oA oB : ShapeType) (g' : TetrisGame),
      (spawn_new_piece oA oB g').game_over =
        (g'.game_over || !(g'.board.is_valid_position (spawnCandidate oA g')))) := by
  have hguard : ¬(¬g.can_swap = true ∨ g.game_over = true ∨ g.paused = true) := by
    simp [hcs, hgo, hpa]
  refine ⟨?_, ?_, ?_, ?_, ?_, ?_, ?_, ?_⟩
  · simp [hold_piece, hp, hguard, hh, hcs, hgo, hpa, mkTetromino]
  · simp [hold_piece, hp, hguard, hh, hcs, hgo, hpa, mkTetromino]
  · simp [hold_piece, hp, hguard, hh, hcs, hgo, hpa, mkTetromino]
  · simp [hold_piece, hp, hguard, hh, hcs, hgo, hpa]
  · simp [hold_piece, hp, hguard, hh, hcs, hgo, hpa]
  · simp [hold_piece, hp, hguard, hh, hcs, hgo, hpa]
  · simp [hold_piece, hp, hguard, hh, hcs, hgo, hpa]
  · intro oA oB g'
    by_cases hv : g'.board.is_valid_position (spawnCandidate oA g') = true
    · simp [spawn_new_piece, hv]
    · simp only [Bool.not_eq_true] at hv
      simp [spawn_new_piece, hv]

/-- Witness for `hold_swap_no_validation`: a fresh board whose rows 1
and 2 are pre-filled, so the swapped-in O piece overlaps non-empty
cells, yet the hold path leaves game-over false; and the spawn
contrast instantiated on a fresh game. -/
theorem hold_swap_no_validation_witness :
    (hold_piece ⟨ShapeType.L, ShapeType.L, false⟩
        { init 10 20 1 ⟨ShapeType.T, ShapeType.I, false⟩ with
          held_piece := some (mkTetromino ShapeType.O),
          board := Board.mk 10 20 ([List.replicate 10 0, List.replicate 10 7, List.replicate 10 7] ++ List.replicate 17 (List.replicate 10 0)) }).game_over = false ∧
    (hold_piece ⟨ShapeType.L, ShapeType.L, false⟩
        { init 10 20 1 ⟨ShapeType.T, ShapeType.I, false⟩ with
          held_piece := some (mkTetromino ShapeType.O),
          board := Board.mk 10 20 ([List.replicate 10 0, List.replicate 10 7, List.replicate 10 7] ++ List.replicate 17 (List.replicate 10 0)) }).current_piece =
      some (Tetromino.mk ShapeType.O 0 3 0) ∧
    (spawn_new_piece ShapeType.O ShapeType.I
        (init 10 20 1 ⟨ShapeType.T, ShapeType.I, false⟩)).game_over =
      ((init 10 20 1 ⟨ShapeType.T, ShapeType.I, false⟩).game_over ||
        !((init 10 20 1 ⟨ShapeType.T, ShapeType.I, false⟩).board.is_valid_position
          (spawnCandidate ShapeType.O (init 10 20 1 ⟨ShapeType.T, ShapeType.I, false⟩)))) := by
  have h := hold_swap_no_validation ⟨ShapeType.L, ShapeType.L, false⟩
    { init 10 20 1 ⟨ShapeType.T, ShapeType.I, false⟩ with
      held_piece := some (mkTetromino ShapeType.O),
      board := Board.mk 10 20 ([List.replicate 10 0, List.replicate 10 7, List.replicate 10 7] ++ List.replicate 17 (List.replicate 10 0)) }
    (mkTetromino ShapeType.T) (mkTetromino ShapeType.O)
    (by decide) (by decide) (by decide) (by decide) (by decide)
  exact ⟨h.1, h.2.1, h.2.2.2.2.2.2.2 ShapeType.O ShapeType.I _⟩


/-! ## Pause-flag bookkeeping for every operation -/

lemma move_piece_paused (dx dy : Int) (g : TetrisGame) :
    (move_piece dx dy g).2.paused = g.paused := by
  unfold move_piece
  cases hc : g.current_piece
  · rfl
  · dsimp only
    split
    · rfl
    · split
      · rfl
      · split <;> rfl

lemma spawn_paused (oA oB : ShapeType) (g : TetrisGame) :
    (spawn_new_piece oA oB g).paused = g.paused := by
  unfold spawn_new_piece
  dsimp only
  split <;> rfl

lemma rotate_piece_paused (cw : Bool) (g : TetrisGame) :
    (rotate_piece cw g).paused = g.paused := by
  unfold rotate_piece
  cases hc : g.current_piece
  · rfl
  · dsimp only
    split
    · rfl
    · split
      · rfl
      · split <;> rfl

lemma hold_piece_paused (o : Oracle) (g : TetrisGame) :
    (hold_piece o g).paused = g.paused := by
  unfold hold_piece
  cases hc : g.current_piece
  · rfl
  · dsimp only
    split
    · rfl
    · split
      · exact spawn_paused o.pieceA o.pieceB _
      · rfl

lemma lockScoreBlock_paused (o : Oracle) (p : Tetromino) (fl : List Nat)
    (g : TetrisGame) : (lockScoreBlock o p fl g).paused = g.paused := by
  unfold lockScoreBlock lockLevelUp lockTetrisBanner lockShake lockHighScore
    lockAddScore lockSpinBanner lockAddLines lockJumpScare lockArm
  dsimp only
  repeat' split
  all_goals rfl

lemma lock_current_piece_paused (o : Oracle) (g : TetrisGame) :
    (lock_current_piece o g).paused = g.paused := by
  unfold lock_current_piece
  cases hc : g.current_piece
  · rfl
  · dsimp only
    split
    · split
      · rfl
      · split
        · exact spawn_paused o.pieceA o.pieceB _
        · rfl
    · split
      · exact lockScoreBlock_paused o _ _ _
      · split
        · rw [spawn_paused o.pieceA o.pieceB _]
          exact lockScoreBlock_paused o _ _ _
        · exact lockScoreBlock_paused o _ _ _

lemma hardDropAux_paused (fuel : Nat) (g : TetrisGame) :
    (hardDropAux fuel g).2.paused = g.paused := by
  induction fuel generalizing g with
  | zero => rfl
  | succ fuel ih =>
    unfold hardDropAux
    dsimp only
    split
    · rw [ih]
      exact move_piece_paused 0 1 g
    · exact move_piece_paused 0 1 g

lemma hard_drop_paused (o : Oracle) (g : TetrisGame) :
    (hard_drop o g).paused = g.paused := by
  unfold hard_drop
  cases hc : g.current_piece
  · rfl
  · dsimp only
    split
    · rfl
    · rw [lock_current_piece_paused]
      exact hardDropAux_paused _ _

lemma handleLeft_paused (i : Input) (g : TetrisGame) :
    (handleLeft i g).paused = g.paused := by
  unfold handleLeft
  split
  · dsimp only
    split
    · exact move_piece_paused (-1) 0 _
    · rfl
  · rfl

lemma handleRight_paused (i : Input) (g : TetrisGame) :
    (handleRight i g).paused = g.paused := by
  unfold handleRight
  split
  · dsimp only
    split
    · exact move_piece_paused 1 0 _
    · rfl
  · rfl

lemma handleDown_paused (i : Input) (g : TetrisGame) :
    (handleDown i g).paused = g.paused := by
  unfold handleDown
  split
  · dsimp only
    split
    · split
      · split
        · exact move_piece_paused 0 1 _
        · exact move_piece_paused 0 1 _
      · exact move_piece_paused 0 1 _
    · rfl
  · rfl

lemma handleGravity_paused (g : TetrisGame) :
    (handleGravity g).paused = g.paused := by
  unfold handleGravity
  dsimp only
  split
  · split
    · exact move_piece_paused 0 1 _
    · split
      · exact move_piece_paused 0 1 _
      · exact move_piece_paused 0 1 _
  · rfl

lemma handleLockDelay_paused (o : Oracle) (g : TetrisGame) :
    (handleLockDelay o g).paused = g.paused := by
  unfold handleLockDelay
  split
  · dsimp only
    split
    · exact lock_current_piece_paused o _
    · rfl
  · rfl

lemma afterPause_paused (i : Input) (o : Oracle) (g : TetrisGame) :
    (afterPause i o g).paused = g.paused := by
  unfold afterPause
  dsimp only
  have h1 : ∀ h : TetrisGame, ((if i.keyUp = true ∨ i.keyX = true then
      rotate_piece true h else h) : TetrisGame).paused = h.paused := by
    intro h
    split
    · exact rotate_piece_paused true h
    · rfl
  have h2 : ∀ h : TetrisGame, ((if i.keyZ = true then rotate_piece false h
      else h) : TetrisGame).paused = h.paused := by
    intro h
    split
    · exact rotate_piece_paused false h
    · rfl
  have h3 : ∀ h : TetrisGame, ((if i.keyC = true then hold_piece o h else h) :
      TetrisGame).paused = h.paused := by
    intro h
    split
    · exact hold_piece_paused o h
    · rfl
  split
  · rw [hard_drop_paused, h3, h2, h1]
  · rw [handleLockDelay_paused, handleGravity_paused, handleDown_paused,
      handleRight_paused, handleLeft_paused, h3, h2, h1]

end Tetris

namespace Tetris

/-! ## C3: behaviour of a paused tick -/

lemma decayTimer_eq (n : Nat) : decayTimer n = n - 1 := by
  unfold decayTimer
  split <;> omega

/-- **C3 counterexample** -- from the reachable paused state obtained
by pressing pause on a fresh game, a tick whose input holds both the
pause key and the rotate key unpauses and rotates the piece in that
same tick: gameplay state is not frozen and inputs other than the
pause toggle are processed. -/
theorem paused_tick_processes_inputs :
    (update { keyP := true } ⟨ShapeType.I, ShapeType.I, false⟩
      (init 10 20 1 ⟨ShapeType.T, ShapeType.I, false⟩)).paused = true ∧
    ((update { keyP := true } ⟨ShapeType.I, ShapeType.I, false⟩
        (init 10 20 1 ⟨ShapeType.T, ShapeType.I, false⟩)).current_piece.map
        Tetromino.rotation_index = some 0) ∧
    ((update { keyP := true, keyUp := true } ⟨ShapeType.I, ShapeType.I, false⟩
        (update { keyP := true } ⟨ShapeType.I, ShapeType.I, false⟩
          (init 10 20 1 ⟨ShapeType.T, ShapeType.I, false⟩))).current_piece.map
        Tetromino.rotation_index = some 1) := by
  refine ⟨?_, ?_, ?_⟩ <;> decide

/-- **C3 amended** -- in a paused state with the game-over flag clear
and no pending clear animation (as in every reachable paused state), a
tick whose input does not press the pause toggle changes nothing but
the six cosmetic overlay timers, each decremented toward 0; in
particular the piece, board, score, lock-delay state and
lines/level/combo counters are frozen and no other input is processed.
A tick that does press the pause toggle clears the paused flag (and
then processes the rest of that tick normally). -/
theorem paused_tick_freezes (g : TetrisGame) (o : Oracle)
    (hpa : g.paused = true) (hgo : g.game_over = false)
    (hanim : g.clear_animation_timer = 0) :
    (∀ i : Input, i.keyP = false →
      update i o g =
        { g with
          level_up_timer := g.level_up_timer - 1,
          score_popup_timer := g.score_popup_timer - 1,
          tetris_timer := g.tetris_timer - 1,
          shake_timer := g.shake_timer - 1,
          spin_message_timer := g.spin_message_timer - 1,
          jump_scare_timer := g.jump_scare_timer - 1 }) ∧
    (∀ i : Input, i.keyP = true → (update i o g).paused = false) := by
  constructor
  · intro i hkey
    unfold update
    rw [hanim, if_neg (by omega)]
    dsimp only
    simp only [decayTimer_eq, hgo, Bool.false_eq_true, if_false, hkey,
      if_pos hpa]
  · intro i hkey
    unfold update
    rw [hanim, if_neg (by omega)]
    dsimp only
    simp only [decayTimer_eq, hgo, Bool.false_eq_true, if_false, hkey,
      if_true]
    rw [if_neg (by simp [hpa])]
    rw [afterPause_paused]
    simp [hpa]

/-- Witness for `paused_tick_freezes` at the reachable paused state of
a fresh game, with a soft-drop-held input. -/
theorem paused_tick_freezes_witness :
    (update { keyDown := true } ⟨ShapeType.I, ShapeType.I, false⟩
        (update { keyP := true } ⟨ShapeType.I, ShapeType.I, false⟩
          (init 10 20 1 ⟨ShapeType.T, ShapeType.I, false⟩)) =
      { update { keyP := true } ⟨ShapeType.I, ShapeType.I, false⟩
          (init 10 20 1 ⟨ShapeType.T, ShapeType.I, false⟩) with
        level_up_timer := 0, score_popup_timer := 0, tetris_timer := 0,
        shake_timer := 0, spin_message_timer := 0, jump_scare_timer := 0 }) ∧
    (update { keyP := true } ⟨ShapeType.I, ShapeType.I, false⟩
        (update { keyP := true } ⟨ShapeType.I, ShapeType.I, false⟩
          (init 10 20 1 ⟨ShapeType.T, ShapeType.I, false⟩))).paused = false := by
  have h := paused_tick_freezes
    (update { keyP := true } ⟨ShapeType.I, ShapeType.I, false⟩
      (init 10 20 1 ⟨ShapeType.T, ShapeType.I, false⟩))
    ⟨ShapeType.I, ShapeType.I, false⟩ (by decide) (by decide) (by decide)
  constructor
  · rw [h.1 { keyDown := true } (by decide)]
    decide
  · exact h.2 { keyP := true } (by decide)


/-! ## C8: score bookkeeping for every operation -/

lemma spawn_score (oA oB : ShapeType) (g : TetrisGame) :
    (spawn_new_piece oA oB g).score = g.score := by
  unfold spawn_new_piece
  dsimp only
  split <;> rfl

lemma move_piece_score (dx dy : Int) (g : TetrisGame) :
    (move_piece dx dy g).2.score = g.score := by
  unfold move_piece
  cases hc : g.current_piece
  · rfl
  · dsimp only
    split
    · rfl
    · split
      · rfl
      · split <;> rfl

lemma rotate_piece_score (cw : Bool) (g : TetrisGame) :
    (rotate_piece cw g).score = g.score := by
  unfold rotate_piece
  cases hc : g.current_piece
  · rfl
  · dsimp only
    split
    · rfl
    · split
      · rfl
      · split <;> rfl

lemma hold_piece_score (o : Oracle) (g : TetrisGame) :
    (hold_piece o g).score = g.score := by
  unfold hold_piece
  cases hc : g.current_piece
  · rfl
  · dsimp only
    split
    · rfl
    · split
      · exact spawn_score o.pieceA o.pieceB _
      · rfl

lemma lockScoreBlock_score_ge (o : Oracle) (p : Tetromino) (fl : List Nat)
    (g : TetrisGame) : g.score ≤ (lockScoreBlock o p fl g).score := by
  unfold lockScoreBlock
  dsimp only
  simp only [lockLevelUp_score, lockTetrisBanner_score, lockShake_score,
    lockHighScore_score, lockAddScore_score, lockSpinBanner_score,
    lockAddLines_score, lockJumpScare_score, lockArm_score]
  omega

set_option maxHeartbeats 2000000 in
lemma lock_current_piece_score_ge (o : Oracle) (g : TetrisGame) :
    g.score ≤ (lock_current_piece o g).score := by
  have htail : ∀ g2 : TetrisGame, g.score ≤ g2.score →
      g.score ≤ (if g2.board.is_game_over = true then
        { g2 with game_over := true }
      else if g2.clear_animation_timer = 0 then
        spawn_new_piece o.pieceA o.pieceB g2
      else g2).score := by
    intro g2 h
    split
    · exact h
    · split
      · rw [spawn_score]
        exact h
      · exact h
  have hLSB : ∀ (q : Tetromino) (fl : List Nat) (X : TetrisGame),
      X.score = g.score → g.score ≤ (lockScoreBlock o q fl X).score := by
    intro q fl X h
    rw [← h]
    exact lockScoreBlock_score_ge o q fl X
  unfold lock_current_piece
  cases hc : g.current_piece
  · exact le_rfl
  · dsimp only
    refine htail _ ?_
    split
    · exact le_rfl
    · exact hLSB _ _ _ rfl

lemma hardDropAux_score (fuel : Nat) (g : TetrisGame) :
    (hardDropAux fuel g).2.score = g.score := by
  induction fuel generalizing g with
  | zero => rfl
  | succ fuel ih =>
    unfold hardDropAux
    dsimp only
    split
    · rw [ih]
      exact move_piece_score 0 1 g
    · exact move_piece_score 0 1 g

lemma hard_drop_score_ge (o : Oracle) (g : TetrisGame) :
    g.score ≤ (hard_drop o g).score := by
  unfold hard_drop
  cases hc : g.current_piece
  · exact le_rfl
  · dsimp only
    split
    · exact le_rfl
    · refine le_trans ?_ (lock_current_piece_score_ge o _)
      calc g.score = (hardDropAux (hardDropFuel g) g).2.score :=
            (hardDropAux_score _ g).symm
        _ ≤ (hardDropAux (hardDropFuel g) g).2.score +
            (hardDropAux (hardDropFuel g) g).1 * 2 := Nat.le_add_right _ _

lemma handleLeft_score (i : Input) (g : TetrisGame) :
    (handleLeft i g).score = g.score := by
  unfold handleLeft
  split
  · dsimp only
    split
    · exact move_piece_score (-1) 0 _
    · rfl
  · rfl

lemma handleRight_score (i : Input) (g : TetrisGame) :
    (handleRight i g).score = g.score := by
  unfold handleRight
  split
  · dsimp only
    split
    · exact move_piece_score 1 0 _
    · rfl
  · rfl

lemma handleDown_score_ge (i : Input) (g : TetrisGame) :
    g.score ≤ (handleDown i g).score := by
  unfold handleDown
  split
  · dsimp only
    split
    · split
      · split
        · exact le_of_eq (move_piece_score 0 1 { g with move_down_counter := g.move_down_counter + 1 }).symm
        · exact le_of_eq (move_piece_score 0 1 { g with move_down_counter := g.move_down_counter + 1 }).symm
      · have h := move_piece_score 0 1
          ({ g with move_down_counter := g.move_down_counter + 1 } : TetrisGame)
        refine le_trans (le_of_eq h.symm) (Nat.le_add_right _ 1)
    · exact le_rfl
  · exact le_rfl

lemma handleGravity_score (g : TetrisGame) :
    (handleGravity g).score = g.score := by
  unfold handleGravity
  dsimp only
  split
  · split
    · exact move_piece_score 0 1 _
    · split
      · exact move_piece_score 0 1 _
      · exact move_piece_score 0 1 _
  · rfl

lemma handleLockDelay_score_ge (o : Oracle) (g : TetrisGame) :
    g.score ≤ (handleLockDelay o g).score := by
  unfold handleLockDelay
  split
  · dsimp only
    split
    · exact lock_current_piece_score_ge o
        { g with lock_delay_timer := g.lock_delay_timer - 1 }
    · exact le_rfl
  · exact le_rfl

lemma afterPause_score_ge (i : Input) (o : Oracle) (g : TetrisGame) :
    g.score ≤ (afterPause i o g).score := by
  unfold afterPause
  dsimp only
  have h1 : ∀ h : TetrisGame, ((if i.keyUp = true ∨ i.keyX = true then
      rotate_piece true h else h) : TetrisGame).score = h.score := by
    intro h
    split
    · exact rotate_piece_score true h
    · rfl
  have h2 : ∀ h : TetrisGame, ((if i.keyZ = true then rotate_piece false h
      else h) : TetrisGame).score = h.score := by
    intro h
    split
    · exact rotate_piece_score false h
    · rfl
  have h3 : ∀ h : TetrisGame, ((if i.keyC = true then hold_piece o h else h) :
      TetrisGame).score = h.score := by
    intro h
    split
    · exact hold_piece_score o h
    · rfl
  split
  · calc g.score = _ := ((h3 _).trans ((h2 _).trans (h1 _))).symm
      _ ≤ _ := hard_drop_score_ge o _
  · calc g.score = _ := ((h3 _).trans ((h2 _).trans (h1 _))).symm
      _ = _ := (handleLeft_score i _).symm
      _ = _ := (handleRight_score i _).symm
      _ ≤ _ := handleDown_score_ge i _
      _ = _ := (handleGravity_score _).symm
      _ ≤ _ := handleLockDelay_score_ge o _

lemma update_score_ge (i : Input) (o : Oracle) (g : TetrisGame) :
    g.score ≤ (update i o g).score := by
  have hAP : ∀ X : TetrisGame, X.score = g.score →
      g.score ≤ (afterPause i o X).score := by
    intro X h
    rw [← h]
    exact afterPause_score_ge i o X
  unfold update
  split
  · dsimp only
    split
    · split
      · rw [spawn_score]
      · exact le_rfl
    · exact le_rfl
  · dsimp only
    split
    · exact le_rfl
    · split
      · split
        · exact le_rfl
        · exact hAP _ rfl
      · split
        · exact le_rfl
        · exact hAP _ rfl

lemma reset_score (o : Oracle) (g : TetrisGame) :
    (reset o g).score = 0 := by
  unfold reset
  dsimp only
  rw [spawn_score]

/-- **C8** -- score monotonicity: no tick and no game operation
(movement, rotation, hold, hard drop, locking, spawning) ever lowers
the score, and the explicit reset is the one operation that does,
setting it to 0. -/
theorem score_monotone :
    (∀ (i : Input) (o : Oracle) (g : TetrisGame),
      g.score ≤ (update i o g).score) ∧
    (∀ (dx dy : Int) (g : TetrisGame),
      g.score ≤ (move_piece dx dy g).2.score) ∧
    (∀ (cw : Bool) (g : TetrisGame), g.score ≤ (rotate_piece cw g).score) ∧
    (∀ (o : Oracle) (g : TetrisGame), g.score ≤ (hold_piece o g).score) ∧
    (∀ (o : Oracle) (g : TetrisGame), g.score ≤ (hard_drop o g).score) ∧
    (∀ (o : Oracle) (g : TetrisGame),
      g.score ≤ (lock_current_piece o g).score) ∧
    (∀ (oA oB : ShapeType) (g : TetrisGame),
      g.score ≤ (spawn_new_piece oA oB g).score) ∧
    (∀ (o : Oracle) (g : TetrisGame), (reset o g).score = 0) :=
  ⟨update_score_ge,
   fun dx dy g => le_of_eq (move_piece_score dx dy g).symm,
   fun cw g => le_of_eq (rotate_piece_score cw g).symm,
   fun o g => le_of_eq (hold_piece_score o g).symm,
   hard_drop_score_ge,
   lock_current_piece_score_ge,
   fun oA oB g => le_of_eq (spawn_score oA oB g).symm,
   reset_score⟩

end Tetris
